import Mathlib

/-!
Verification of the OneAgent / wealth-portal MCP server (TypeScript sources)
against its natural-language specification.

The TypeScript sources are shallowly embedded: each class method that the
claims touch becomes a Lean function on an explicit state; JavaScript `Date.now()`
timestamps are `Int` milliseconds; code that throws returns `Except`;
external effects (the GraphQL client, the filesystem, `fetch`, the zod
`parse` calls) are passed in as oracle parameters so that the control flow
around them is modelled exactly.
-/

namespace OneAgent

/-! ## JavaScript string helpers -/

/-- Whether the character list `pat` occurs at the start of `s`. -/
def charsStartWith : List Char → List Char → Bool
  | [], _ => true
  | _ :: _, [] => false
  | a :: as, b :: bs => a = b && charsStartWith as bs

/-- Whether the character list `pat` occurs contiguously anywhere in `s`. -/
def charsContain (s pat : List Char) : Bool :=
  match s with
  | [] => pat.isEmpty
  | _ :: rest => charsStartWith pat s || charsContain rest pat

/-- JavaScript `s.includes(pat)`. -/
def jsIncludes (s pat : String) : Bool :=
  charsContain s.toList pat.toList

/-- JavaScript `s.slice(-n)`: the substring starting at `max(length - n, 0)`.
Lean's truncating `Nat` subtraction gives exactly the `max` clamping. -/
def jsSliceFromEnd (s : String) (n : Nat) : String :=
  s.drop (s.length - n)

/-- JavaScript truthiness of a possibly-absent string property:
`undefined` and the empty string are falsy. -/
def truthyStr : Option String → Bool
  | none => false
  | some s => s != ""

/-! ## Configuration store (`src/config/config-manager.ts`) -/

/-- Hardcoded GraphQL endpoint since it's consistent
(`HARDCODED_GRAPHQL_ENDPOINT`). -/
def HARDCODED_GRAPHQL_ENDPOINT : String :=
  "https://organization-gateway-service.staging.onewealth.io/graphql"

/-- The configuration record produced by `ConfigManager.getConfig`; the
zod `ConfigSchema` marks `organizationId`/`userId` optional but `getConfig`
always materialises them as strings (empty when unset). -/
structure Config where
  graphqlEndpoint : String
  apiKey : String
  timeout : Int
  retries : Int
  organizationId : String
  userId : String
deriving Repr, DecidableEq

/-- The process environment as loaded once at startup (the constructor runs
dotenv over `.env.local`).  `TIMEOUT`/`RETRIES` are stored already parsed:
the claims never exercise `parseInt` itself. -/
structure Env where
  apiKeyVar : Option String
  timeoutVar : Option Int
  retriesVar : Option Int
  organizationIdVar : Option String
  userIdVar : Option String
deriving Repr, DecidableEq

/-- `getConfig`'s env-to-config construction: `process.env.X || default`. -/
def envToConfig (e : Env) : Config :=
  { graphqlEndpoint := HARDCODED_GRAPHQL_ENDPOINT
    apiKey := (e.apiKeyVar.getD "")
    timeout := (e.timeoutVar.getD 10000)
    retries := (e.retriesVar.getD 3)
    organizationId := (e.organizationIdVar.getD "")
    userId := (e.userIdVar.getD "") }

/-- State of one `ConfigManager` instance: the startup environment, the
in-memory cache (`this.config`), and the `.env.local` file contents, recorded
as the configuration that `updateEnvFile` rendered into it (`none` until the
manager first writes it). -/
structure ManagerState where
  env : Env
  config : Option Config
  envFile : Option Config
deriving Repr, DecidableEq

/-- `ConfigManager.getConfig()`: return the cache if present, otherwise build
from the environment and cache the result. -/
def ConfigManager.getConfig (st : ManagerState) : Config × ManagerState :=
  match st.config with
  | some c => (c, st)
  | none =>
    let c := envToConfig st.env
    (c, { st with config := some c })

/-- `ConfigManager.isConfigured()`. -/
def ConfigManager.isConfigured (st : ManagerState) : Bool :=
  let c := (ConfigManager.getConfig st).1
  c.graphqlEndpoint != "" && c.apiKey != ""

/-- `ConfigManager.isFullyConfigured()`. -/
def ConfigManager.isFullyConfigured (st : ManagerState) : Bool :=
  let c := (ConfigManager.getConfig st).1
  c.graphqlEndpoint != "" && c.apiKey != "" &&
    c.organizationId != "" && c.userId != ""

/-- `ConfigManager.getOrganizationId()`: throws when the id is empty. -/
def ConfigManager.getOrganizationId (st : ManagerState) : Except String String :=
  let c := (ConfigManager.getConfig st).1
  if c.organizationId = "" then
    .error "Organization ID not configured. Use config_set to set organizationId."
  else
    .ok c.organizationId

/-- `ConfigManager.getUserId()`: throws when the id is empty. -/
def ConfigManager.getUserId (st : ManagerState) : Except String String :=
  let c := (ConfigManager.getConfig st).1
  if c.userId = "" then
    .error "User ID not configured. Use config_set to set userId."
  else
    .ok c.userId

/-- A partial configuration update (`Partial<Config>`), field present iff the
caller supplied it. -/
structure ConfigUpdate where
  graphqlEndpoint : Option String := none
  apiKey : Option String := none
  timeout : Option Int := none
  retries : Option Int := none
  organizationId : Option String := none
  userId : Option String := none
deriving Repr, DecidableEq

/-- The object spread `{...currentConfig, ...updates}`. -/
def mergeConfig (c : Config) (u : ConfigUpdate) : Config :=
  { graphqlEndpoint := u.graphqlEndpoint.getD c.graphqlEndpoint
    apiKey := u.apiKey.getD c.apiKey
    timeout := u.timeout.getD c.timeout
    retries := u.retries.getD c.retries
    organizationId := u.organizationId.getD c.organizationId
    userId := u.userId.getD c.userId }

/-- `ConfigSchema.parse(newConfig)`: all fields are type-correct by
construction in this embedding, so validity reduces to the
`z.string().url()` check on `graphqlEndpoint`.  The URL validator itself
lives in the zod library, outside this repository, so it is a parameter. -/
def configSchemaValid (isURL : String → Bool) (c : Config) : Bool :=
  isURL c.graphqlEndpoint

/-- `ConfigManager.updateConfig(updates)`.  Returns the thrown error or unit,
together with the resulting manager state (the `getConfig` call may
materialise the cache even on a thrown error). -/
def ConfigManager.updateConfig (isURL : String → Bool) (st : ManagerState)
    (u : ConfigUpdate) : Except String Unit × ManagerState :=
  let p := ConfigManager.getConfig st
  let currentConfig := p.1
  let st1 := p.2
  let newConfig := mergeConfig currentConfig u
  if truthyStr u.graphqlEndpoint && (u.graphqlEndpoint.getD "" != HARDCODED_GRAPHQL_ENDPOINT) then
    (.error "GraphQL endpoint is hardcoded and cannot be changed", st1)
  else if configSchemaValid isURL newConfig then
    (.ok (), { st1 with config := some newConfig, envFile := some newConfig })
  else
    (.error "Invalid config", st1)

/-- The defaults that `resetConfig` renders into `.env.local`. -/
def defaultConfig : Config :=
  { graphqlEndpoint := HARDCODED_GRAPHQL_ENDPOINT
    apiKey := ""
    timeout := 10000
    retries := 3
    organizationId := ""
    userId := "" }

/-- `ConfigManager.resetConfig()`: drop the cache, rewrite the persisted file
to the defaults; the process environment is untouched. -/
def ConfigManager.resetConfig (st : ManagerState) : ManagerState :=
  { st with config := none, envFile := some defaultConfig }

/-! ## Failure tracker (`ConfigTools`, `src/tools/config-tools.ts`) -/

/-- One entry of `ConfigTools.failedAttempts`. -/
structure FailureRecord where
  count : Nat
  lastAttempt : Int
  errors : List String
deriving Repr, DecidableEq

/-- The `failedAttempts` map, total over operation names. -/
def FailMap : Type := String → Option FailureRecord

/-- `Map.set`. -/
def FailMap.set (m : FailMap) (k : String) (v : FailureRecord) : FailMap :=
  fun k' => if k' = k then some v else m k'

/-- `Map.delete` (`clearFailedAttempts`). -/
def FailMap.del (m : FailMap) (k : String) : FailMap :=
  fun k' => if k' = k then none else m k'

/-- The empty `failedAttempts` map a fresh `ConfigTools` instance starts with. -/
def FailMap.empty : FailMap := fun _ => none

/-- `ConfigTools.trackFailedAttempt(toolName, errorMessage)` acting on the
entry for that name; `now` is `Date.now()`. -/
def trackFailedAttempt (existing : Option FailureRecord) (now : Int)
    (errorMessage : String) : FailureRecord :=
  match existing with
  | some ex =>
    if now - ex.lastAttempt > 300000 then
      { count := 1, lastAttempt := now, errors := [errorMessage] }
    else
      let errs := ex.errors ++ [errorMessage]
      { count := ex.count + 1, lastAttempt := now
        errors := if errs.length > 5 then errs.drop (errs.length - 5) else errs }
  | none => { count := 1, lastAttempt := now, errors := [errorMessage] }

/-! ## Tool call plumbing shared by every registry -/

/-- The raw argument bag of a call request.  The `handleTool` implementations
themselves only ever read the three identifier properties before handing the
whole bag to the zod schema; everything else is carried opaquely. -/
structure RawArgs where
  organizationId : Option String := none
  objectId : Option String := none
  userId : Option String := none
  rest : List (String × String) := []
deriving Repr, DecidableEq

/-- A content payload as returned by a handler (every handler in the sources
returns a single text content block); `isError` is set only by the server's
catch-all. -/
structure CallResult where
  text : String
  isError : Bool := false
deriving Repr, DecidableEq

/-- The distinct `new Error(...)` shapes thrown inside the tool classes;
`renderFailure` recovers the exact message string of each. -/
inductive ToolFailure where
  | notFound (name : String)
  | notConfigured
  | placeholderOrganizationId
  | placeholderObjectId
  | placeholderUserId
  | validation (msg : String)
  | loopDetected (count : Nat) (recent : List String)
  | handlerError (msg : String)
  | unknownTool (name : String)
deriving Repr, DecidableEq

/-- The message carried by each thrown error, exactly as in the sources. -/
def renderFailure : ToolFailure → String
  | .notFound name => "Tool " ++ name ++ " not found"
  | .notConfigured =>
    "Server configuration is incomplete. Use config_set to configure API key and other required settings."
  | .placeholderOrganizationId =>
    "Invalid organization ID provided. Please omit the organizationId parameter to use the configured value, or provide a valid organization ID."
  | .placeholderObjectId =>
    "Invalid organization ID provided. Please omit the objectId parameter to use the configured value, or provide a valid organization ID."
  | .placeholderUserId =>
    "Invalid user ID provided. Please omit the userId parameter to use the configured value, or provide a valid user ID."
  | .validation msg => msg
  | .loopDetected count recent =>
    "LOOP DETECTED: This tool has failed " ++ toString count ++
      " times in the last 2 minutes with similar errors. Please STOP retrying and ask the user for clarification or different parameters. Recent errors: " ++
      String.intercalate "; " recent
  | .handlerError msg => msg
  | .unknownTool name => "Unknown tool: " ++ name

/-- Whether a failure is the loop-detection escalation. -/
def ToolFailure.isLoop : ToolFailure → Bool
  | .loopDetected _ _ => true
  | _ => false

/-- A zod `inputSchema.parse` oracle: per operation name, either the
validated/defaulted bag or the zod error message. -/
def ParseOracle : Type := String → RawArgs → Except String RawArgs

/-- A handler-body oracle: per operation name, the handler's result or the
message of the error it threw (handlers perform network and file I/O). -/
def HandlerOracle : Type := String → RawArgs → Except String CallResult

/-- The placeholder heuristic used on supplied identifier values. -/
def isPlaceholder (s : String) : Bool :=
  jsIncludes s "your_" || jsIncludes s "placeholder" || jsIncludes s "_here"

/-! ## Theme/branding registry (`GraphQLTools`, `src/tools/graphql-tools.ts`) -/

/-- The operation names `GraphQLTools` registers. -/
def GraphQLTools.toolNames : List String := ["update_organization_theme"]

/-- `GraphQLTools.hasTool(name)`. -/
def GraphQLTools.hasTool (name : String) : Bool :=
  GraphQLTools.toolNames.contains name

/-- `GraphQLTools.handleTool(name, args)`: not-found check, then the
configuration gate, then the placeholder pre-validation on
`args.organizationId`, then schema validation, then the handler. -/
def GraphQLTools.handleTool (st : ManagerState) (parse : ParseOracle)
    (handler : HandlerOracle) (name : String) (args : RawArgs) :
    Except ToolFailure CallResult :=
  if !GraphQLTools.hasTool name then
    .error (.notFound name)
  else if !ConfigManager.isConfigured st then
    .error .notConfigured
  else if truthyStr args.organizationId && isPlaceholder (args.organizationId.getD "") then
    .error .placeholderOrganizationId
  else
    match parse name args with
    | .error msg => .error (.validation msg)
    | .ok v =>
      match handler name v with
      | .error msg => .error (.handlerError msg)
      | .ok r => .ok r

/-! ## Document inspection registry (`PDFTools`, `src/tools/pdf-tools.ts`) -/

/-- The operation names `PDFTools` registers. -/
def PDFTools.toolNames : List String := ["view_pdf", "extract_pdf_text", "get_pdf_info"]

/-- `PDFTools.hasTool(name)`. -/
def PDFTools.hasTool (name : String) : Bool :=
  PDFTools.toolNames.contains name

/-- `PDFTools.handleTool(name, args)`: not-found check, schema validation,
handler.  `PDFTools` holds no `ConfigManager` at all, so there is no
configuration gate on this path. -/
def PDFTools.handleTool (parse : ParseOracle) (handler : HandlerOracle)
    (name : String) (args : RawArgs) : Except ToolFailure CallResult :=
  if !PDFTools.hasTool name then
    .error (.notFound name)
  else
    match parse name args with
    | .error msg => .error (.validation msg)
    | .ok v =>
      match handler name v with
      | .error msg => .error (.handlerError msg)
      | .ok r => .ok r

/-! ## Generic upload registry (`ImageUploadTools`, `src/tools/image-upload-tools.ts`) -/

/-- The operation names `ImageUploadTools` registers. -/
def ImageUploadTools.toolNames : List String := ["upload_file"]

/-- `ImageUploadTools.hasTool(name)`. -/
def ImageUploadTools.hasTool (name : String) : Bool :=
  ImageUploadTools.toolNames.contains name

/-- `ImageUploadTools.handleTool(name, args)`: not-found check, configuration
gate, placeholder pre-validation on `args.objectId` then `args.userId`,
schema validation, handler. -/
def ImageUploadTools.handleTool (st : ManagerState) (parse : ParseOracle)
    (handler : HandlerOracle) (name : String) (args : RawArgs) :
    Except ToolFailure CallResult :=
  if !ImageUploadTools.hasTool name then
    .error (.notFound name)
  else if !ConfigManager.isConfigured st then
    .error .notConfigured
  else if truthyStr args.objectId && isPlaceholder (args.objectId.getD "") then
    .error .placeholderObjectId
  else if truthyStr args.userId && isPlaceholder (args.userId.getD "") then
    .error .placeholderUserId
  else
    match parse name args with
    | .error msg => .error (.validation msg)
    | .ok v =>
      match handler name v with
      | .error msg => .error (.handlerError msg)
      | .ok r => .ok r

/-! ## Configuration registry (`ConfigTools`, `src/tools/config-tools.ts`) -/

/-- The operation names `ConfigTools` registers. -/
def ConfigTools.toolNames : List String :=
  ["config_get", "config_set", "config_reset", "config_status"]

/-- `ConfigTools.hasTool(name)`. -/
def ConfigTools.hasTool (name : String) : Bool :=
  ConfigTools.toolNames.contains name

/-- The `catch` branch of `ConfigTools.handleTool`: record the failure, then
either escalate to the loop-detection error (when the just-updated record has
`count >= 3` and is under two minutes old) or rethrow the original error. -/
def ConfigTools.catchFailure (m : FailMap) (name : String) (now : Int)
    (orig : ToolFailure) : ToolFailure × FailMap :=
  let attemptInfo := trackFailedAttempt (m name) now (renderFailure orig)
  let m' := FailMap.set m name attemptInfo
  if attemptInfo.count ≥ 3 && (now - attemptInfo.lastAttempt < 120000) then
    (.loopDetected attemptInfo.count
      (attemptInfo.errors.drop (attemptInfo.errors.length - 3)), m')
  else
    (orig, m')

/-- `ConfigTools.handleTool(name, args)`: not-found check outside the `try`;
inside it, schema validation (clearing the failure record on success) and the
handler, with any thrown error routed through `catchFailure`. -/
def ConfigTools.handleTool (m : FailMap) (now : Int) (parse : ParseOracle)
    (handler : HandlerOracle) (name : String) (args : RawArgs) :
    Except ToolFailure CallResult × FailMap :=
  if !ConfigTools.hasTool name then
    (.error (.notFound name), m)
  else
    match parse name args with
    | .error msg =>
      let p := ConfigTools.catchFailure m name now (.validation msg)
      (.error p.1, p.2)
    | .ok v =>
      let m1 := FailMap.del m name
      match handler name v with
      | .error msg =>
        let p := ConfigTools.catchFailure m1 name now (.handlerError msg)
        (.error p.1, p.2)
      | .ok r => (.ok r, m1)

/-! ## Dispatcher (`WealthPortalMCPServer.setupHandlers` / `registerHandlers`) -/

/-- The oracles a dispatch invocation threads to the four registries. -/
structure DispatchOracles where
  graphqlParse : ParseOracle
  graphqlHandler : HandlerOracle
  pdfParse : ParseOracle
  pdfHandler : HandlerOracle
  imageParse : ParseOracle
  imageHandler : HandlerOracle
  configParse : ParseOracle
  configHandler : HandlerOracle

/-- The `try` block of the `CallToolRequestSchema` handler: route to the
owning registry in registration order, or throw `Unknown tool`. -/
def routeTool (st : ManagerState) (m : FailMap) (now : Int)
    (o : DispatchOracles) (name : String) (args : RawArgs) :
    Except ToolFailure CallResult × FailMap :=
  if GraphQLTools.hasTool name then
    (GraphQLTools.handleTool st o.graphqlParse o.graphqlHandler name args, m)
  else if PDFTools.hasTool name then
    (PDFTools.handleTool o.pdfParse o.pdfHandler name args, m)
  else if ImageUploadTools.hasTool name then
    (ImageUploadTools.handleTool st o.imageParse o.imageHandler name args, m)
  else if ConfigTools.hasTool name then
    ConfigTools.handleTool m now o.configParse o.configHandler name args
  else
    (.error (.unknownTool name), m)

/-- The uniform error payload built by the dispatcher's `catch` block. -/
def dispatchErrorResult (name : String) (f : ToolFailure) : CallResult :=
  { text := "Error executing tool " ++ name ++ ": " ++ renderFailure f
    isError := true }

/-- The whole `CallToolRequestSchema` handler: the `try` block's outcome, with
every thrown error converted to an `isError` payload. -/
def dispatch (st : ManagerState) (m : FailMap) (now : Int)
    (o : DispatchOracles) (name : String) (args : RawArgs) :
    CallResult × FailMap :=
  match routeTool st m now o name args with
  | (.ok r, m') => (r, m')
  | (.error f, m') => (dispatchErrorResult name f, m')

/-! ## config_get masking (`ConfigTools.getConfig`) -/

/-- The `safeConfig` object built by the `config_get` handler: the
configuration with `apiKey` replaced by
`config.apiKey ? '***' + config.apiKey.slice(-4) : ''`. -/
def ConfigTools.safeConfig (config : Config) : Config :=
  { config with
      apiKey := if config.apiKey != "" then "***" ++ jsSliceFromEnd config.apiKey 4 else "" }

/-! ## Upload workflow (`ImageUploadTools.uploadFile`) -/

/-- `objectType` values of the `upload_file` schema. -/
inductive ObjectType where
  | ORGANIZATION
  | USER
  | CLIENT
deriving Repr, DecidableEq

/-- `type` (asset kind) values of the `upload_file` schema. -/
inductive AssetKind where
  | LOGO
  | AVATAR
  | DOCUMENT
  | IMAGE
deriving Repr, DecidableEq

/-- `permissionType` values of the `upload_file` schema. -/
inductive PermissionKind where
  | PUBLIC
  | PRIVATE
  | RESTRICTED
deriving Repr, DecidableEq

/-- The validated, defaulted argument object `uploadFile` receives. -/
structure UploadArgs where
  filePath : String
  fileName : Option String := none
  objectType : ObjectType := .ORGANIZATION
  objectId : Option String := none
  type : AssetKind := .LOGO
  userId : Option String := none
  permissionType : PermissionKind := .PUBLIC
  updateTheme : Bool := false
deriving Repr, DecidableEq

/-- The `fetch` response of the transfer step: `ok`, `status`, `statusText`. -/
structure S3Response where
  ok : Bool
  status : Int
  statusText : String
deriving Repr, DecidableEq

/-- The `fileDocument` object returned by `createFileDocument`. -/
structure FileDocument where
  id : String
  name : String
  fileName : String
  s3Key : String
  type : String
deriving Repr, DecidableEq

/-- The `updateOrganization` payload of the optional step 4. -/
structure ThemeUpdatePayload where
  organizationId : String
deriving Repr, DecidableEq

/-- Outcomes of the external effects `uploadFile` performs, one per call
site, each either the value produced or the message of the error thrown. -/
structure UploadOracles where
  fetchFileUploadUrl : Except String (String × String)
  readFileSync : Except String (List UInt8)
  s3Put : Except String S3Response
  createFileDocument : Except String FileDocument
  updateOrganization : Except String ThemeUpdatePayload

/-- The JSON payload of `uploadFile`'s success response. -/
structure UploadSuccess where
  success : Bool
  fileDocument : FileDocument
  themeUpdate : Option ThemeUpdatePayload
  message : String
  steps : List String
deriving Repr, DecidableEq

/-- JavaScript `a || b` for a possibly-absent string, with a fallible
fallback expression (`args.objectId || this.configManager.getOrganizationId()`). -/
def jsOrElse (v : Option String) (fallback : Except String String) :
    Except String String :=
  match v with
  | some s => if s != "" then .ok s else fallback
  | none => fallback

/-- `args.fileName || args.filePath.split('/').pop() || 'uploaded-file'`. -/
def computeFileName (fileName : Option String) (filePath : String) : String :=
  let popped := (filePath.splitOn "/").getLastD ""
  match fileName with
  | some s => if s != "" then s else (if popped != "" then popped else "uploaded-file")
  | none => if popped != "" then popped else "uploaded-file"

/-- The body of `ImageUploadTools.uploadFile` before its outer `catch`,
written with each fallible call matched explicitly (the `error` branches are
the exception propagation of the TypeScript `await`s and `throw`s). -/
def ImageUploadTools.uploadFileBody (st : ManagerState) (o : UploadOracles)
    (args : UploadArgs) : Except String UploadSuccess :=
  match jsOrElse args.objectId (ConfigManager.getOrganizationId st) with
  | .error e => .error e
  | .ok objectId =>
  match jsOrElse args.userId (ConfigManager.getUserId st) with
  | .error e => .error e
  | .ok userId =>
  let _fileName := computeFileName args.fileName args.filePath
  if objectId = "" then
    .error "Organization ID is required. Set ORGANIZATION_ID environment variable or provide objectId parameter."
  else if userId = "" then
    .error "User ID is required. Set USER_ID environment variable or provide userId parameter."
  else
  match o.fetchFileUploadUrl with
  | .error e => .error e
  | .ok _uploadUrl =>
  match o.readFileSync with
  | .error e => .error e
  | .ok _fileBuffer =>
  match o.s3Put with
  | .error e => .error e
  | .ok uploadResponse =>
  if !uploadResponse.ok then
    .error ("Failed to upload file to S3: " ++ toString uploadResponse.status ++ " " ++
      uploadResponse.statusText)
  else
  match o.createFileDocument with
  | .error e => .error e
  | .ok fileDocument =>
  match (if args.updateTheme && args.objectType == .ORGANIZATION && args.type == .LOGO then
      Except.map (fun p => some p) o.updateOrganization
    else
      .ok none) with
  | .error e => .error e
  | .ok themeUpdateResult =>
  .ok
    { success := true
      fileDocument := fileDocument
      themeUpdate := themeUpdateResult
      message := "File uploaded and processed successfully"
      steps :=
        ["1. ✅ Generated upload URL",
         "2. ✅ Uploaded file to S3",
         "3. ✅ Created file document",
         if args.updateTheme then "4. ✅ Updated organization theme"
         else "4. ⏭️ Skipped theme update"] }

/-- `ImageUploadTools.uploadFile`: the body with its outer `catch`, which
wraps every thrown error as `Failed to upload file: ...`. -/
def ImageUploadTools.uploadFile (st : ManagerState) (o : UploadOracles)
    (args : UploadArgs) : Except String UploadSuccess :=
  match ImageUploadTools.uploadFileBody st o args with
  | .ok r => .ok r
  | .error e => .error ("Failed to upload file: " ++ e)

/-! ## Session transport close cascade
(`MCPHttpServer.configureRoutes`, `_archive/nodejs-mcp/src/http-server.ts`) -/

/-- The individual actions the `GET /mcp` route wires to the channel's
`close` event. -/
inductive CloseAction where
  | removeSessionEntry
  | closeTransport
  | closeServer
  | cancelKeepalive
deriving Repr, DecidableEq

/-- The order in which those actions are initiated when the response's
`close` event fires.  Node runs `close` listeners in registration order: the
first listener (registered right after `connect`) synchronously deletes the
session entry and starts `transport.close()` and `server.close()` before its
first suspension; the second listener (registered after the heartbeat
interval is created) clears the keepalive interval. -/
def sseCloseSequence : List CloseAction :=
  [.removeSessionEntry, .closeTransport, .closeServer, .cancelKeepalive]

/-! ## Concrete fixtures used by witnesses and counterexamples -/

/-- An environment with every setting supplied. -/
def envTest : Env :=
  { apiKeyVar := some "test-api-key-1234"
    timeoutVar := none
    retriesVar := none
    organizationIdVar := some "org-1"
    userIdVar := some "user-1" }

/-- The configuration `envTest` materialises to. -/
def cfgTest : Config :=
  { graphqlEndpoint := HARDCODED_GRAPHQL_ENDPOINT
    apiKey := "test-api-key-1234"
    timeout := 10000
    retries := 3
    organizationId := "org-1"
    userId := "user-1" }

/-- A manager whose cache already holds a complete configuration. -/
def stConfigured : ManagerState :=
  { env := envTest, config := some cfgTest, envFile := none }

/-- An environment with nothing supplied. -/
def envNone : Env :=
  { apiKeyVar := none, timeoutVar := none, retriesVar := none
    organizationIdVar := none, userIdVar := none }

/-- A fresh manager over an empty environment: no identity token, so
`isConfigured()` is false. -/
def stUnconfigured : ManagerState :=
  { env := envNone, config := none, envFile := none }

/-- An empty raw argument bag. -/
def argsEmpty : RawArgs := {}

/-- A zod oracle that accepts the bag unchanged. -/
def oracleParseOk : ParseOracle := fun _ a => .ok a

/-- A zod oracle that rejects with a fixed message. -/
def oracleParseReject (msg : String) : ParseOracle := fun _ _ => .error msg

/-- A handler oracle returning a fixed payload. -/
def oracleHandlerOk (text : String) : HandlerOracle := fun _ _ => .ok { text := text }

/-- Dispatch oracles in which every schema accepts and every handler
succeeds with a registry-specific payload. -/
def dispatchOraclesOk : DispatchOracles :=
  { graphqlParse := oracleParseOk
    graphqlHandler := oracleHandlerOk "theme updated"
    pdfParse := oracleParseOk
    pdfHandler := oracleHandlerOk "pdf text content"
    imageParse := oracleParseOk
    imageHandler := oracleHandlerOk "file uploaded"
    configParse := oracleParseOk
    configHandler := oracleHandlerOk "config ok" }

/-- Dispatch oracles in which the `upload_file` schema always rejects. -/
def dispatchOraclesUploadRejects : DispatchOracles :=
  { dispatchOraclesOk with imageParse := oracleParseReject "Required" }

/-- Upload oracles in which steps 1 to 3 succeed and the step-4 theme update
fails. -/
def uploadOraclesStep4Fails : UploadOracles :=
  { fetchFileUploadUrl := .ok ("https://s3.example/upload", "1700000000")
    readFileSync := .ok [1, 2, 3]
    s3Put := .ok { ok := true, status := 200, statusText := "OK" }
    createFileDocument := .ok
      { id := "doc-1", name := "logo.png", fileName := "logo.png"
        s3Key := "orgs/org-1/logo.png", type := "LOGO" }
    updateOrganization := .error "GraphQL error: forbidden" }

/-- Validated `upload_file` arguments requesting the dependent theme update
for an organization logo. -/
def uploadArgsTheme : UploadArgs :=
  { filePath := "/tmp/logo.png"
    objectId := some "org-1"
    userId := some "user-1"
    updateTheme := true }

/-- A stand-in for the external URL validator, used only to instantiate
witnesses: accepts exactly the nonempty strings beginning with a scheme. -/
def urlCheckTest : String → Bool := fun s => s.startsWith "http"

/-- An argument bag carrying an unresolved-template organization id. -/
def argsPlaceholderOrg : RawArgs := { organizationId := some "your_org_id_here" }

/-- An argument bag carrying an unresolved-template object id. -/
def argsPlaceholderObject : RawArgs := { objectId := some "placeholder-123" }

/-- An argument bag carrying an unresolved-template user id. -/
def argsPlaceholderUser : RawArgs := { userId := some "user_id_here" }

/-! ## Helper lemmas -/

/-- Reading the configuration does not touch the persisted file. -/
theorem getConfig_envFile (st : ManagerState) :
    (ConfigManager.getConfig st).2.envFile = st.envFile := by
  rcases h : st.config with _ | c <;> simp [ConfigManager.getConfig, h]

/-- Reading the configuration does not touch the environment. -/
theorem getConfig_env (st : ManagerState) :
    (ConfigManager.getConfig st).2.env = st.env := by
  rcases h : st.config with _ | c <;> simp [ConfigManager.getConfig, h]

/-- Reading the configuration twice yields the same value: the first read
fills the cache. -/
theorem getConfig_fst_stable (st : ManagerState) :
    (ConfigManager.getConfig (ConfigManager.getConfig st).2).1 =
      (ConfigManager.getConfig st).1 := by
  rcases h : st.config with _ | c <;> simp [ConfigManager.getConfig, h]

/-- Setting a key in the failure map makes it readable at that key. -/
theorem FailMap.get_set_self (m : FailMap) (k : String) (v : FailureRecord) :
    FailMap.set m k v k = some v := by
  simp [FailMap.set]

/-! ## Claim theorems -/

/-- Claim C4: for every starting configuration, `updateConfig` with an
endpoint value different from the compiled-in fixed endpoint fails (with the
immutable-endpoint error, or the schema error when the supplied value is the
falsy empty string), regardless of configuration completeness, and leaves
both the observable in-memory configuration and the persisted file
unchanged.  The external URL validator is any checker rejecting the empty
string. -/
theorem claim_C4 (isURL : String → Bool) (st : ManagerState) (u : ConfigUpdate)
    (e : String) (he : u.graphqlEndpoint = some e)
    (hne : e ≠ HARDCODED_GRAPHQL_ENDPOINT) (hurl : isURL "" = false) :
    ((ConfigManager.updateConfig isURL st u).1 =
        .error "GraphQL endpoint is hardcoded and cannot be changed" ∨
      (ConfigManager.updateConfig isURL st u).1 = .error "Invalid config") ∧
      (ConfigManager.updateConfig isURL st u).2.envFile = st.envFile ∧
      (ConfigManager.getConfig (ConfigManager.updateConfig isURL st u).2).1 =
        (ConfigManager.getConfig st).1 := by
  by_cases h0 : e = ""
  · subst h0
    have hguard : truthyStr u.graphqlEndpoint = false := by
      simp [truthyStr, he]
    have hmerge : ∀ c : Config, (mergeConfig c u).graphqlEndpoint = "" := by
      intro c; simp [mergeConfig, he]
    simp only [ConfigManager.updateConfig, hguard, Bool.false_and, if_false,
      Bool.false_eq_true, configSchemaValid, hmerge, hurl]
    exact ⟨Or.inr (by trivial), getConfig_envFile st, getConfig_fst_stable st⟩
  · have hguard : (truthyStr u.graphqlEndpoint &&
        (u.graphqlEndpoint.getD "" != HARDCODED_GRAPHQL_ENDPOINT)) = true := by
      simp [truthyStr, he, h0, hne]
    simp only [ConfigManager.updateConfig, hguard, if_true]
    exact ⟨Or.inl (by trivial), getConfig_envFile st, getConfig_fst_stable st⟩

/-- Claim C4 witness: a concrete foreign endpoint is rejected and changes
nothing. -/
theorem claim_C4_witness :
    ({ graphqlEndpoint := some "https://evil.example/graphql"} : ConfigUpdate).graphqlEndpoint =
        some "https://evil.example/graphql" ∧
      "https://evil.example/graphql" ≠ HARDCODED_GRAPHQL_ENDPOINT ∧
      urlCheckTest "" = false ∧
      (((ConfigManager.updateConfig urlCheckTest stConfigured
            { graphqlEndpoint := some "https://evil.example/graphql"}).1 =
          .error "GraphQL endpoint is hardcoded and cannot be changed" ∨
        (ConfigManager.updateConfig urlCheckTest stConfigured
            { graphqlEndpoint := some "https://evil.example/graphql"}).1 =
          .error "Invalid config") ∧
        (ConfigManager.updateConfig urlCheckTest stConfigured
            { graphqlEndpoint := some "https://evil.example/graphql"}).2.envFile =
          stConfigured.envFile ∧
        (ConfigManager.getConfig (ConfigManager.updateConfig urlCheckTest stConfigured
            { graphqlEndpoint := some "https://evil.example/graphql"}).2).1 =
          (ConfigManager.getConfig stConfigured).1) :=
  ⟨rfl, by decide, rfl,
    claim_C4 urlCheckTest stConfigured _ "https://evil.example/graphql" rfl (by decide) rfl⟩

/-- Claim C5: for every operation name and raw argument bag, the dispatch
entry point returns a well-formed call result: when the routed call
succeeds its payload is passed through, and when any error is raised during
routing, configuration checking, validation or handler execution, the
dispatcher converts it into a payload with `isError` set and the
human-readable message; no failure escapes the handler. -/
theorem claim_C5 (st : ManagerState) (m : FailMap) (now : Int)
    (o : DispatchOracles) (name : String) (args : RawArgs) :
    (∃ r m', routeTool st m now o name args = (.ok r, m') ∧
        dispatch st m now o name args = (r, m')) ∨
      (∃ f m', routeTool st m now o name args = (.error f, m') ∧
        dispatch st m now o name args = (dispatchErrorResult name f, m') ∧
        (dispatchErrorResult name f).isError = true ∧
        (dispatchErrorResult name f).text =
          "Error executing tool " ++ name ++ ": " ++ renderFailure f) := by
  rcases h : routeTool st m now o name args with ⟨res, m'⟩
  cases res with
  | ok r => exact Or.inl ⟨r, m', rfl, by simp [dispatch, h]⟩
  | error f => exact Or.inr ⟨f, m', rfl, by simp [dispatch, h], rfl, rfl⟩

/-- Claim C6 counterexample: in the close cascade wired by the session
transport's channel-open route, the keepalive cancellation is *not* ordered
before the removal of the session entry — the first registered close
listener removes the entry and the interval is only cleared by the second
listener. -/
theorem claim_C6_counterexample :
    ¬ sseCloseSequence.indexOf CloseAction.cancelKeepalive <
        sseCloseSequence.indexOf CloseAction.removeSessionEntry := by
  decide

/-- Claim C6 amended: on closure of a session channel the session entry is
removed and the transport/handler closure initiated first, and the keepalive
timer is cancelled last in the same synchronously-initiated close cascade
(so the cancellation does still happen on every close, just after removal
rather than before it). -/
theorem claim_C6_amended :
    sseCloseSequence.indexOf CloseAction.removeSessionEntry <
        sseCloseSequence.indexOf CloseAction.cancelKeepalive ∧
      CloseAction.cancelKeepalive ∈ sseCloseSequence ∧
      CloseAction.removeSessionEntry ∈ sseCloseSequence := by
  decide

/-- Claim C7: a failure arriving strictly more than 5 minutes (300000 ms)
after an existing record's last failure restarts the record as a fresh
streak with count 1 and a fresh one-element error history. -/
theorem claim_C7 (ex : FailureRecord) (now : Int) (msg : String)
    (h : now - ex.lastAttempt > 300000) :
    trackFailedAttempt (some ex) now msg =
      { count := 1, lastAttempt := now, errors := [msg] } := by
  simp [trackFailedAttempt, h]

/-- Claim C7 witness: a record from time 0 hit again at 300001 ms restarts
at count 1. -/
theorem claim_C7_witness :
    ((300001 : Int) -
        ({ count := 4, lastAttempt := 0, errors := ["e1", "e2"] } : FailureRecord).lastAttempt >
        300000) ∧
      trackFailedAttempt (some { count := 4, lastAttempt := 0, errors := ["e1", "e2"] })
          300001 "e3" =
        { count := 1, lastAttempt := 300001, errors := ["e3"] } :=
  ⟨by decide, claim_C7 _ 300001 "e3" (by decide)⟩

/-- Claim C9: the `config_get` payload is the stored configuration with
`apiKey` replaced by `***` followed by the key's last four characters (the
whole key when shorter), or the empty string when no key is set; every other
field is returned unchanged. -/
theorem claim_C9 (config : Config) :
    (ConfigTools.safeConfig config).apiKey =
        (if config.apiKey = "" then ""
         else "***" ++ String.mk (config.apiKey.data.drop (config.apiKey.data.length - 4))) ∧
      (ConfigTools.safeConfig config).graphqlEndpoint = config.graphqlEndpoint ∧
      (ConfigTools.safeConfig config).timeout = config.timeout ∧
      (ConfigTools.safeConfig config).retries = config.retries ∧
      (ConfigTools.safeConfig config).organizationId = config.organizationId ∧
      (ConfigTools.safeConfig config).userId = config.userId := by
  refine ⟨?_, rfl, rfl, rfl, rfl, rfl⟩
  by_cases h : config.apiKey = ""
  · simp [ConfigTools.safeConfig, h]
  · have hb : (config.apiKey != "") = true := by simp [h]
    simp only [ConfigTools.safeConfig, hb, if_true, if_neg h, jsSliceFromEnd,
      String.drop_eq]
    rfl

/-- Claim C10: after `reset()` clears the cache and rewrites the persisted
file to the hard-coded defaults, the next `get()` rebuilds the configuration
from the startup process environment, so it returns the environment-supplied
identity token rather than the empty default that was just persisted. -/
theorem claim_C10 (st : ManagerState) (k : String)
    (hk : st.env.apiKeyVar = some k) :
    (ConfigManager.getConfig (ConfigManager.resetConfig st)).1 =
        envToConfig st.env ∧
      (ConfigManager.getConfig (ConfigManager.resetConfig st)).1.apiKey = k ∧
      (ConfigManager.resetConfig st).envFile = some defaultConfig ∧
      defaultConfig.apiKey = "" := by
  refine ⟨rfl, ?_, rfl, rfl⟩
  simp [ConfigManager.getConfig, ConfigManager.resetConfig, envToConfig, hk]

/-- Claim C10 witness: with `API_KEY` present in the startup environment, a
`get()` right after `reset()` returns that key even though the persisted
defaults carry an empty one. -/
theorem claim_C10_witness :
    stConfigured.env.apiKeyVar = some "test-api-key-1234" ∧
      ((ConfigManager.getConfig (ConfigManager.resetConfig stConfigured)).1 =
          envToConfig stConfigured.env ∧
        (ConfigManager.getConfig (ConfigManager.resetConfig stConfigured)).1.apiKey =
          "test-api-key-1234" ∧
        (ConfigManager.resetConfig stConfigured).envFile = some defaultConfig ∧
        defaultConfig.apiKey = "") :=
  ⟨rfl, claim_C10 stConfigured "test-api-key-1234" rfl⟩

/-- Claim C1 counterexample: with the dependent theme update requested
(`updateTheme = true`, owner `ORGANIZATION`, asset kind `LOGO`) and steps
1 to 3 all succeeding, a step-4 failure makes `uploadFile` throw, so the
operation surfaces an overall failure rather than a success result
enumerating steps 1 to 3. -/
theorem claim_C1_counterexample :
    ImageUploadTools.uploadFile stConfigured uploadOraclesStep4Fails uploadArgsTheme =
      .error "Failed to upload file: GraphQL error: forbidden" := by
  rfl

/-- Claim C1 amended: when steps 1 to 3 succeed and the requested step-4
theme update fails, `uploadFile` propagates the step-4 error as an overall
failure wrapped as `Failed to upload file: ...`; the success payload that
enumerates the steps is produced only when every executed step succeeds. -/
theorem claim_C1_amended (st : ManagerState) (o : UploadOracles)
    (args : UploadArgs) (oid uid url ts : String) (buf : List UInt8)
    (resp : S3Response) (doc : FileDocument) (e : String)
    (hoid : jsOrElse args.objectId (ConfigManager.getOrganizationId st) = .ok oid)
    (huid : jsOrElse args.userId (ConfigManager.getUserId st) = .ok uid)
    (hoidne : oid ≠ "") (huidne : uid ≠ "")
    (h1 : o.fetchFileUploadUrl = .ok (url, ts))
    (h2 : o.readFileSync = .ok buf)
    (h3 : o.s3Put = .ok resp) (hok : resp.ok = true)
    (h4 : o.createFileDocument = .ok doc)
    (hthm : args.updateTheme = true) (hot : args.objectType = .ORGANIZATION)
    (hknd : args.type = .LOGO)
    (h5 : o.updateOrganization = .error e) :
    ImageUploadTools.uploadFile st o args =
      .error ("Failed to upload file: " ++ e) := by
  unfold ImageUploadTools.uploadFile ImageUploadTools.uploadFileBody
  simp [hoid, huid, hoidne, huidne, h1, h2, h3, hok, h4, hthm, hot, hknd, h5,
    Except.map]

/-- Claim C1 amended witness: the concrete step-4 failure above flows
through the amended statement. -/
theorem claim_C1_amended_witness :
    uploadArgsTheme.updateTheme = true ∧
      uploadArgsTheme.objectType = ObjectType.ORGANIZATION ∧
      uploadArgsTheme.type = AssetKind.LOGO ∧
      uploadOraclesStep4Fails.updateOrganization = .error "GraphQL error: forbidden" ∧
      ImageUploadTools.uploadFile stConfigured uploadOraclesStep4Fails uploadArgsTheme =
        .error ("Failed to upload file: " ++ "GraphQL error: forbidden") :=
  ⟨rfl, rfl, rfl, rfl,
    claim_C1_amended stConfigured uploadOraclesStep4Fails uploadArgsTheme
      "org-1" "user-1" "https://s3.example/upload" "1700000000" [1, 2, 3]
      { ok := true, status := 200, statusText := "OK" }
      { id := "doc-1", name := "logo.png", fileName := "logo.png"
        s3Key := "orgs/org-1/logo.png", type := "LOGO" }
      "GraphQL error: forbidden"
      rfl rfl (by decide) (by decide) rfl rfl rfl rfl rfl rfl rfl rfl rfl⟩

/-- Claim C2 counterexample: the loop-detection escalation exists only in
the configuration registry.  For the operation name `upload_file`, three
consecutive validation failures (at 0 ms, 30000 ms and 60000 ms, well inside
a 2-minute window) each produce the plain validation error response; the
third call does not report the loop error, because the generic-upload
registry tracks no failures and the dispatcher leaves the failure map
untouched on that route. -/
theorem claim_C2_counterexample :
    (dispatch stConfigured FailMap.empty 0 dispatchOraclesUploadRejects
        "upload_file" argsEmpty).1 =
      { text := "Error executing tool upload_file: Required", isError := true } ∧
    (dispatch stConfigured
        (dispatch stConfigured FailMap.empty 0 dispatchOraclesUploadRejects
          "upload_file" argsEmpty).2
        30000 dispatchOraclesUploadRejects "upload_file" argsEmpty).1 =
      { text := "Error executing tool upload_file: Required", isError := true } ∧
    (dispatch stConfigured
        (dispatch stConfigured
          (dispatch stConfigured FailMap.empty 0 dispatchOraclesUploadRejects
            "upload_file" argsEmpty).2
          30000 dispatchOraclesUploadRejects "upload_file" argsEmpty).2
        60000 dispatchOraclesUploadRejects "upload_file" argsEmpty).1 =
      { text := "Error executing tool upload_file: Required", isError := true } ∧
    (routeTool stConfigured
        (dispatch stConfigured
          (dispatch stConfigured FailMap.empty 0 dispatchOraclesUploadRejects
            "upload_file" argsEmpty).2
          30000 dispatchOraclesUploadRejects "upload_file" argsEmpty).2
        60000 dispatchOraclesUploadRejects "upload_file" argsEmpty).1 =
      .error (.validation "Required") ∧
    ToolFailure.isLoop (.validation "Required") = false :=
  ⟨rfl, rfl, rfl, rfl, rfl⟩

/-- Claim C2 amended: for every operation name owned by the configuration
registry, three consecutive validation failures for that name within a
2-minute window (starting from no failure record, as after a success) make
the third failing call report the loop-detection error carrying the three
recorded error messages instead of the plain validation error; operations of
the other registries have no failure tracking and always surface the plain
validation error. -/
theorem claim_C2_amended (m : FailMap) (name : String) (t1 t2 t3 : Int)
    (s1 s2 s3 : String) (p1 p2 p3 : ParseOracle) (hh : HandlerOracle)
    (args1 args2 args3 : RawArgs)
    (hname : ConfigTools.hasTool name = true)
    (hm : m name = none)
    (h12 : t1 ≤ t2) (h23 : t2 ≤ t3) (hwin : t3 - t1 < 120000)
    (hp1 : p1 name args1 = .error s1) (hp2 : p2 name args2 = .error s2)
    (hp3 : p3 name args3 = .error s3) :
    (ConfigTools.handleTool m t1 p1 hh name args1).1 =
        .error (.validation s1) ∧
      (ConfigTools.handleTool (ConfigTools.handleTool m t1 p1 hh name args1).2
          t2 p2 hh name args2).1 = .error (.validation s2) ∧
      (ConfigTools.handleTool
          (ConfigTools.handleTool (ConfigTools.handleTool m t1 p1 hh name args1).2
            t2 p2 hh name args2).2
          t3 p3 hh name args3).1 =
        .error (.loopDetected 3 [s1, s2, s3]) := by
  have hc2 : ¬ t2 - t1 > 300000 := by omega
  have hc3 : ¬ t3 - t2 > 300000 := by omega
  have e1 : ConfigTools.handleTool m t1 p1 hh name args1 =
      (.error (.validation s1),
        FailMap.set m name { count := 1, lastAttempt := t1, errors := [s1] }) := by
    simp [ConfigTools.handleTool, hname, hp1, ConfigTools.catchFailure, hm,
      trackFailedAttempt, renderFailure]
  have e2 : ConfigTools.handleTool
      (FailMap.set m name { count := 1, lastAttempt := t1, errors := [s1] })
      t2 p2 hh name args2 =
      (.error (.validation s2),
        FailMap.set (FailMap.set m name { count := 1, lastAttempt := t1, errors := [s1] })
          name { count := 2, lastAttempt := t2, errors := [s1, s2] }) := by
    simp [ConfigTools.handleTool, hname, hp2, ConfigTools.catchFailure,
      FailMap.get_set_self, trackFailedAttempt, renderFailure, hc2]
  have e3 : (ConfigTools.handleTool
      (FailMap.set (FailMap.set m name { count := 1, lastAttempt := t1, errors := [s1] })
        name { count := 2, lastAttempt := t2, errors := [s1, s2] })
      t3 p3 hh name args3).1 =
      .error (.loopDetected 3 [s1, s2, s3]) := by
    simp [ConfigTools.handleTool, hname, hp3, ConfigTools.catchFailure,
      FailMap.get_set_self, trackFailedAttempt, renderFailure, hc3]
  refine ⟨by rw [e1], by rw [e1, e2], by rw [e1, e2]; exact e3⟩

/-- Claim C2 amended witness: three concrete failing `config_set` calls at
0, 100 and 200 ms escalate exactly on the third call. -/
theorem claim_C2_amended_witness :
    ConfigTools.hasTool "config_set" = true ∧
      FailMap.empty "config_set" = none ∧
      ((0 : Int) ≤ 100 ∧ (100 : Int) ≤ 200 ∧ (200 : Int) - 0 < 120000) ∧
      ((ConfigTools.handleTool FailMap.empty 0 (oracleParseReject "err1")
          (oracleHandlerOk "config ok") "config_set" argsEmpty).1 =
        .error (.validation "err1") ∧
      (ConfigTools.handleTool
          (ConfigTools.handleTool FailMap.empty 0 (oracleParseReject "err1")
            (oracleHandlerOk "config ok") "config_set" argsEmpty).2
          100 (oracleParseReject "err2") (oracleHandlerOk "config ok")
          "config_set" argsEmpty).1 = .error (.validation "err2") ∧
      (ConfigTools.handleTool
          (ConfigTools.handleTool
            (ConfigTools.handleTool FailMap.empty 0 (oracleParseReject "err1")
              (oracleHandlerOk "config ok") "config_set" argsEmpty).2
            100 (oracleParseReject "err2") (oracleHandlerOk "config ok")
            "config_set" argsEmpty).2
          200 (oracleParseReject "err3") (oracleHandlerOk "config ok")
          "config_set" argsEmpty).1 =
        .error (.loopDetected 3 ["err1", "err2", "err3"])) :=
  ⟨rfl, rfl, ⟨by decide, by decide, by decide⟩,
    claim_C2_amended FailMap.empty "config_set" 0 100 200 "err1" "err2" "err3"
      (oracleParseReject "err1") (oracleParseReject "err2") (oracleParseReject "err3")
      (oracleHandlerOk "config ok") argsEmpty argsEmpty argsEmpty
      rfl rfl (by decide) (by decide) (by decide) rfl rfl rfl⟩

/-- Claim C3 counterexample: the document-inspection registry performs no
configuration check.  With the identity token absent (`isConfigured` false),
invoking `view_pdf` does not fail with the not-configured error — it runs
schema validation and the handler and returns the handler's payload. -/
theorem claim_C3_counterexample :
    ConfigManager.isConfigured stUnconfigured = false ∧
      (dispatch stUnconfigured FailMap.empty 0 dispatchOraclesOk
          "view_pdf" argsEmpty).1 =
        { text := "pdf text content", isError := false } :=
  ⟨rfl, rfl⟩

/-- Claim C3 amended: while the configuration is not minimally configured,
the theme/branding and generic-upload registries fail every owned operation
with the not-configured error before schema validation and before the
handler runs; the document-inspection registry has no configuration gate and
never produces that error — its operations proceed to validation and the
handler regardless of configuration. -/
theorem claim_C3_amended (st : ManagerState) (p : ParseOracle)
    (hh : HandlerOracle) (name : String) (args : RawArgs)
    (hc : ConfigManager.isConfigured st = false) :
    (GraphQLTools.hasTool name = true →
      GraphQLTools.handleTool st p hh name args = .error .notConfigured) ∧
      (ImageUploadTools.hasTool name = true →
        ImageUploadTools.handleTool st p hh name args = .error .notConfigured) ∧
      PDFTools.handleTool p hh name args ≠ .error .notConfigured := by
  refine ⟨?_, ?_, ?_⟩
  · intro h
    simp [GraphQLTools.handleTool, h, hc]
  · intro h
    simp [ImageUploadTools.handleTool, h, hc]
  · unfold PDFTools.handleTool
    by_cases h : PDFTools.hasTool name
    · simp only [h, Bool.not_true, Bool.false_eq_true, if_false]
      cases hp : p name args with
      | error msg => simp
      | ok v =>
        cases hhv : hh name v with
        | error msg => simp [hhv]
        | ok r => simp [hhv]
    · simp [h]

/-- Claim C3 amended witness: at a concrete unconfigured state the
theme/branding and upload operations are gated while `view_pdf` is not. -/
theorem claim_C3_amended_witness :
    ConfigManager.isConfigured stUnconfigured = false ∧
      GraphQLTools.handleTool stUnconfigured oracleParseOk
          (oracleHandlerOk "theme updated") "update_organization_theme" argsEmpty =
        .error .notConfigured ∧
      ImageUploadTools.handleTool stUnconfigured oracleParseOk
          (oracleHandlerOk "file uploaded") "upload_file" argsEmpty =
        .error .notConfigured ∧
      PDFTools.handleTool oracleParseOk (oracleHandlerOk "pdf text content")
          "view_pdf" argsEmpty ≠ .error .notConfigured :=
  ⟨rfl,
    (claim_C3_amended stUnconfigured oracleParseOk (oracleHandlerOk "theme updated")
      "update_organization_theme" argsEmpty rfl).1 rfl,
    (claim_C3_amended stUnconfigured oracleParseOk (oracleHandlerOk "file uploaded")
      "upload_file" argsEmpty rfl).2.1 rfl,
    (claim_C3_amended stUnconfigured oracleParseOk (oracleHandlerOk "pdf text content")
      "view_pdf" argsEmpty rfl).2.2⟩

/-- Claim C8: on a configured server, a supplied identifier argument whose
value contains one of the placeholder substrings is rejected before schema
validation (the outcome does not depend on the parse or handler oracles)
with the placeholder-specific error: `organizationId` on the theme
operation, `objectId` and `userId` on the upload operation (the `userId`
check runs when the `objectId` check does not fire). -/
theorem claim_C8 (st : ManagerState) (p : ParseOracle) (hh : HandlerOracle)
    (args : RawArgs) (hcfg : ConfigManager.isConfigured st = true) :
    (truthyStr args.organizationId = true →
      isPlaceholder (args.organizationId.getD "") = true →
      GraphQLTools.handleTool st p hh "update_organization_theme" args =
        .error .placeholderOrganizationId) ∧
      (truthyStr args.objectId = true →
        isPlaceholder (args.objectId.getD "") = true →
        ImageUploadTools.handleTool st p hh "upload_file" args =
          .error .placeholderObjectId) ∧
      (truthyStr args.userId = true →
        isPlaceholder (args.userId.getD "") = true →
        (truthyStr args.objectId && isPlaceholder (args.objectId.getD "")) = false →
        ImageUploadTools.handleTool st p hh "upload_file" args =
          .error .placeholderUserId) := by
  refine ⟨?_, ?_, ?_⟩
  · intro h1 h2
    simp [GraphQLTools.handleTool, GraphQLTools.hasTool, GraphQLTools.toolNames,
      hcfg, h1, h2]
  · intro h1 h2
    simp [ImageUploadTools.handleTool, ImageUploadTools.hasTool,
      ImageUploadTools.toolNames, hcfg, h1, h2]
  · intro h1 h2 h3
    simp [ImageUploadTools.handleTool, ImageUploadTools.hasTool,
      ImageUploadTools.toolNames, hcfg, h1, h2, h3]

/-- Claim C8 witness: `your_org_id_here`, `placeholder-123` and
`user_id_here` are syntactically valid strings yet rejected with the
placeholder messages on a configured server. -/
theorem claim_C8_witness :
    ConfigManager.isConfigured stConfigured = true ∧
      isPlaceholder "your_org_id_here" = true ∧
      isPlaceholder "placeholder-123" = true ∧
      isPlaceholder "user_id_here" = true ∧
      GraphQLTools.handleTool stConfigured oracleParseOk
          (oracleHandlerOk "theme updated") "update_organization_theme"
          argsPlaceholderOrg = .error .placeholderOrganizationId ∧
      ImageUploadTools.handleTool stConfigured oracleParseOk
          (oracleHandlerOk "file uploaded") "upload_file" argsPlaceholderObject =
        .error .placeholderObjectId ∧
      ImageUploadTools.handleTool stConfigured oracleParseOk
          (oracleHandlerOk "file uploaded") "upload_file" argsPlaceholderUser =
        .error .placeholderUserId :=
  ⟨rfl, by decide, by decide, by decide,
    (claim_C8 stConfigured oracleParseOk (oracleHandlerOk "theme updated")
      argsPlaceholderOrg rfl).1 rfl (by decide),
    (claim_C8 stConfigured oracleParseOk (oracleHandlerOk "file uploaded")
      argsPlaceholderObject rfl).2.1 rfl (by decide),
    (claim_C8 stConfigured oracleParseOk (oracleHandlerOk "file uploaded")
      argsPlaceholderUser rfl).2.2 rfl (by decide) (by decide)⟩

end OneAgent
